import Mathlib

/-!
Verification of the `gsd.hoomd` schema layer (`src/gsd/hoomd.py`).

The development shallowly embeds the module: numpy arrays become `NDArray`
(a dtype tag, a shape, a flat row-major list of element values, and the
`writeable` flag); element payloads are modelled as exact integers, which is
value-preserving for every input exercised here (dtype casts are tag changes).
The chunked file collaborator `gsd.fl` is not part of the sources; it is
modelled from the spec (section 6) as a list of committed frames, each an
association list from chunk path to stored array.  Fallible Python code
becomes `Except PyError`.
-/

/-- Element-type tags of the numpy dtypes used by the hoomd schema. -/
inductive DType
  | float32
  | uint32
  | int32
  | int8
  deriving DecidableEq, Repr

/-- Model of a numpy array: dtype tag, shape, flat row-major data, and the
`flags.writeable` bit.  Element values are modelled as exact integers. -/
structure NDArray where
  dtype : DType
  shape : List Nat
  data : List Int
  writeable : Bool := true
  deriving DecidableEq, Repr

/-- Broadcast two shapes given in reversed (trailing-first) order, per numpy's
rule: dimensions must be equal or one of them 1. -/
def broadcastDims : List Nat → List Nat → Option (List Nat)
  | [], ys => some ys
  | x :: xs, [] => some (x :: xs)
  | x :: xs, y :: ys =>
    match broadcastDims xs ys with
    | none => none
    | some rest =>
      if x = y then some (x :: rest)
      else if x = 1 then some (y :: rest)
      else if y = 1 then some (x :: rest)
      else none

/-- Broadcast shape of two numpy shapes, `none` when they do not broadcast. -/
def broadcastShape (s t : List Nat) : Option (List Nat) :=
  (broadcastDims s.reverse t.reverse).map List.reverse

/-- Number of elements of a shape. -/
def shapeProd (s : List Nat) : Nat := s.foldl (fun a b => a * b) 1

/-- Row-major flat offset of a multi-index. -/
def flatIndex (shape idx : List Nat) : Nat :=
  (List.zip shape idx).foldl (fun acc p => acc * p.1 + p.2) 0

/-- All multi-indices of a shape, in row-major order. -/
def allIndices : List Nat → List (List Nat)
  | [] => [[]]
  | n :: rest => (List.range n).flatMap (fun i => (allIndices rest).map (fun t => i :: t))

/-- Element of an array at a (possibly longer, broadcast) multi-index: numpy
aligns trailing dimensions and pins size-1 dimensions to index 0. -/
def NDArray.bget (a : NDArray) (idx : List Nat) : Int :=
  let k := a.shape.length
  let idx' := idx.drop (idx.length - k)
  let idx'' := (List.zip a.shape idx').map (fun p => if p.1 = 1 then 0 else p.2)
  a.data.getD (flatIndex a.shape idx'') 0

/-- Model of `numpy.all(a == b)`: broadcast the operands and require every
element pair equal; non-broadcastable shapes compare as `False` (the
era-appropriate numpy behaviour for shape-mismatched `==`). -/
def numpyAllEq (a b : NDArray) : Bool :=
  match broadcastShape a.shape b.shape with
  | none => false
  | some s => (allIndices s).all (fun idx => a.bget idx == b.bget idx)

/-- Model of `numpy.ascontiguousarray(a, dtype)`: with the target dtype the
(always contiguous) array is returned as is, otherwise a fresh writable array
with converted dtype.  Values are preserved in the modelled integer range. -/
def ascontiguousarray (a : NDArray) (dt : DType) : NDArray :=
  if a.dtype = dt then a else { a with dtype := dt, writeable := true }

/-- Model of `ndarray.reshape`: succeeds exactly when the element count
matches the requested shape. -/
def NDArray.reshape (a : NDArray) (s : List Nat) : Option NDArray :=
  if shapeProd s = a.data.length then some { a with shape := s } else none

/-- Cyclic extension of a list to length `n`, as `numpy.resize` repeats data. -/
def cycleTo (l : List Int) (n : Nat) : List Int :=
  (List.range n).map (fun i => l.getD (i % l.length) 0)

/-- Model of `numpy.resize(a, s)`: data repeated cyclically to fill shape `s`. -/
def npResize (a : NDArray) (s : List Nat) : NDArray :=
  { dtype := a.dtype, shape := s, data := cycleTo a.data (shapeProd s), writeable := true }

/-- Python exceptions raised by the embedded code paths. -/
inductive PyError
  | valueError (msg : String)
  | attributeError (msg : String)
  | typeError (msg : String)
  | unicodeEncodeError
  | unicodeDecodeError
  | indexError
  | runtimeError (msg : String)
  deriving DecidableEq, Repr

/-- The per-particle array fields of the catalog (`_default_value` keys other
than `N` and `types`), in the catalog's iteration order. -/
inductive PField
  | typeid
  | mass
  | charge
  | diameter
  | moment_inertia
  | position
  | orientation
  | velocity
  | angmom
  | image
  deriving DecidableEq, Repr

/-- Catalog order of the per-particle array fields. -/
def PField.all : List PField :=
  [.typeid, .mass, .charge, .diameter, .moment_inertia, .position, .orientation,
   .velocity, .angmom, .image]

/-- Chunk-name part of each per-particle field. -/
def PField.name : PField → String
  | .typeid => "typeid"
  | .mass => "mass"
  | .charge => "charge"
  | .diameter => "diameter"
  | .moment_inertia => "moment_inertia"
  | .position => "position"
  | .orientation => "orientation"
  | .velocity => "velocity"
  | .angmom => "angmom"
  | .image => "image"

/-- Static defaults of the catalog (`SnapshotParticleData._default_value`):
numpy scalars get shape `[]`, the vector defaults shape `[3]` or `[4]`. -/
def PField.defaultArr : PField → NDArray
  | .typeid => { dtype := .uint32, shape := [], data := [0] }
  | .mass => { dtype := .float32, shape := [], data := [1] }
  | .charge => { dtype := .float32, shape := [], data := [0] }
  | .diameter => { dtype := .float32, shape := [], data := [1] }
  | .moment_inertia => { dtype := .float32, shape := [3], data := [0, 0, 0] }
  | .position => { dtype := .float32, shape := [3], data := [0, 0, 0] }
  | .orientation => { dtype := .float32, shape := [4], data := [1, 0, 0, 0] }
  | .velocity => { dtype := .float32, shape := [3], data := [0, 0, 0] }
  | .angmom => { dtype := .float32, shape := [4], data := [0, 0, 0, 0] }
  | .image => { dtype := .int32, shape := [3], data := [0, 0, 0] }

/-- The particle record: count `N`, the type-name list, and one optional array
slot per catalog field (`None` in Python becomes `Option.none`). -/
structure SnapshotParticleData where
  N : Nat
  types : Option (List String)
  typeid : Option NDArray
  mass : Option NDArray
  charge : Option NDArray
  diameter : Option NDArray
  moment_inertia : Option NDArray
  position : Option NDArray
  orientation : Option NDArray
  velocity : Option NDArray
  angmom : Option NDArray
  image : Option NDArray
  deriving DecidableEq, Repr

/-- The freshly constructed record (`SnapshotParticleData.__init__`). -/
def emptyParticles : SnapshotParticleData :=
  { N := 0, types := none, typeid := none, mass := none, charge := none,
    diameter := none, moment_inertia := none, position := none,
    orientation := none, velocity := none, angmom := none, image := none }

/-- Dynamic attribute read of a per-particle array slot. -/
def SnapshotParticleData.get (p : SnapshotParticleData) : PField → Option NDArray
  | .typeid => p.typeid
  | .mass => p.mass
  | .charge => p.charge
  | .diameter => p.diameter
  | .moment_inertia => p.moment_inertia
  | .position => p.position
  | .orientation => p.orientation
  | .velocity => p.velocity
  | .angmom => p.angmom
  | .image => p.image

/-- The `validate` method of `SnapshotParticleData` (hoomd.py lines 78-123),
field by field in source order.  Each present field is converted to a
contiguous array of the catalog dtype and reshaped.  The source's
moment-of-inertia branch reads the misspelled attribute `moment_interia`
when reshaping, which does not exist, so that branch raises
`AttributeError` whenever `moment_inertia` is present. -/
def SnapshotParticleData.validate (s0 : SnapshotParticleData) :
    Except PyError SnapshotParticleData :=
  let step (cur : Option NDArray) (dt : DType) (shape : List Nat) (nm : String) :
      Except PyError (Option NDArray) :=
    match cur with
    | none => .ok none
    | some a =>
      match (ascontiguousarray a dt).reshape shape with
      | some a' => .ok (some a')
      | none => .error (.valueError ("cannot reshape " ++ nm))
  match step s0.position .float32 [s0.N, 3] "position" with
  | .error e => .error e
  | .ok position =>
  match step s0.orientation .float32 [s0.N, 4] "orientation" with
  | .error e => .error e
  | .ok orientation =>
  match step s0.typeid .uint32 [s0.N] "typeid" with
  | .error e => .error e
  | .ok typeid =>
  match step s0.mass .float32 [s0.N] "mass" with
  | .error e => .error e
  | .ok mass =>
  match step s0.charge .float32 [s0.N] "charge" with
  | .error e => .error e
  | .ok charge =>
  match step s0.diameter .float32 [s0.N] "diameter" with
  | .error e => .error e
  | .ok diameter =>
  match s0.moment_inertia with
  | some _ =>
    -- source line 114: `self.moment_inertia = self.moment_interia.reshape([self.N, 3])`
    .error (.attributeError "moment_interia")
  | none =>
  match step s0.velocity .float32 [s0.N, 3] "velocity" with
  | .error e => .error e
  | .ok velocity =>
  match step s0.angmom .float32 [s0.N, 4] "angmom" with
  | .error e => .error e
  | .ok angmom =>
  match step s0.image .int32 [s0.N, 3] "image" with
  | .error e => .error e
  | .ok image =>
  .ok { s0 with
        position := position
        orientation := orientation
        typeid := typeid
        mass := mass
        charge := charge
        diameter := diameter
        velocity := velocity
        angmom := angmom
        image := image }

/-- Top level snapshot container. -/
structure Snapshot where
  particles : SnapshotParticleData
  deriving DecidableEq, Repr

/-- One committed frame: an association list from chunk path to stored array. -/
abbrev FrameChunks := List (String × NDArray)

/-- Modelled from the spec: the chunked-file collaborator `gsd.fl`
(spec section 6), which is not under `src/`.  A handle carries its name,
declared schema and version, the committed frames, and the chunks staged for
the not-yet-committed frame.  `chunk_exists(frame, path)` is true exactly when
a chunk is indexed at `(frame, path)`; frames outside the committed range
(including negative indices) hold no chunks.  On-disk chunks carry no flag,
so `write_chunk` normalizes the stored array to writable. -/
structure GSDFile where
  name : String
  schema : String
  schema_version : Nat × Nat
  frames : List FrameChunks
  pending : FrameChunks
  deriving DecidableEq, Repr

/-- Number of committed frames. -/
def GSDFile.nframes (f : GSDFile) : Nat := f.frames.length

/-- Chunks of a frame index; out-of-range or negative indices have none. -/
def GSDFile.frameChunks (f : GSDFile) (frame : Int) : FrameChunks :=
  if 0 ≤ frame then f.frames.getD frame.toNat [] else []

/-- Modelled from the spec: `chunk_exists(frame, name)`. -/
def GSDFile.chunk_exists (f : GSDFile) (frame : Int) (nm : String) : Bool :=
  ((f.frameChunks frame).lookup nm).isSome

/-- Modelled from the spec: `read_chunk(frame, name)`, `none` when absent. -/
def GSDFile.read_chunk (f : GSDFile) (frame : Int) (nm : String) : Option NDArray :=
  (f.frameChunks frame).lookup nm

/-- Modelled from the spec: `write_chunk(name, data)` stages a chunk. -/
def GSDFile.write_chunk (f : GSDFile) (nm : String) (data : NDArray) : GSDFile :=
  { f with pending := f.pending ++ [(nm, { data with writeable := true })] }

/-- Modelled from the spec: `end_frame()` commits the staged frame. -/
def GSDFile.end_frame (f : GSDFile) : GSDFile :=
  { f with frames := f.frames ++ [f.pending], pending := [] }

/-- The trajectory handle: the file and the lazily populated frame-0 cache. -/
structure HOOMDTrajectory where
  file : GSDFile
  _initial_frame : Option Snapshot
  deriving DecidableEq, Repr

/-- Number of frames (`__len__`). -/
def HOOMDTrajectory.length (t : HOOMDTrajectory) : Nat := t.file.nframes

/-- Constructor checks of `HOOMDTrajectory.__init__` (hoomd.py lines 152-163):
schema name must be `hoomd`, schema version must be exactly `(0, 1)`. -/
def openTrajectory (file : GSDFile) : Except PyError HOOMDTrajectory :=
  if file.schema ≠ "hoomd" then
    .error (.runtimeError ("GSD file is not a hoomd schema file: " ++ file.name))
  else if file.schema_version ≠ (0, 1) then
    .error (.runtimeError ("Incompatible hoomd schema version in: " ++ file.name))
  else .ok { file := file, _initial_frame := none }

/-- The catalog keys, in `_default_value` iteration order. -/
inductive FieldId
  | N
  | types
  | pfield (f : PField)
  deriving DecidableEq, Repr

/-- Chunk-name part of a catalog key. -/
def FieldId.name : FieldId → String
  | .N => "N"
  | .types => "types"
  | .pfield f => f.name

/-- The dynamic value `getattr(container, name)` of a catalog key: the count
is a plain number (never `None`), the type names a Python list of strings or
`None`, the array fields numpy arrays or `None`. -/
inductive FieldValue
  | absent
  | nat (n : Nat)
  | strs (l : List String)
  | arr (a : NDArray)
  deriving DecidableEq, Repr

/-- Dynamic attribute read of a catalog key on a snapshot. -/
def Snapshot.getField (s : Snapshot) : FieldId → FieldValue
  | .N => .nat s.particles.N
  | .types =>
    match s.particles.types with
    | some l => .strs l
    | none => .absent
  | .pfield f =>
    match s.particles.get f with
    | some a => .arr a
    | none => .absent

/-- The static default of a catalog key. -/
def defaultField : FieldId → FieldValue
  | .N => .nat 0
  | .types => .strs ["A"]
  | .pfield f => .arr f.defaultArr

/-- Model of `numpy.all(x == y)` on the dynamic values: numbers and Python
string lists compare by equality, arrays by broadcast elementwise equality,
`None` compares unequal to any present value. -/
def pyAllEq : FieldValue → FieldValue → Bool
  | .nat n, .nat m => n == m
  | .strs a, .strs b => a == b
  | .arr a, .arr b => numpyAllEq a b
  | .absent, .absent => true
  | _, _ => false

/-- The write decision `HOOMDTrajectory._should_write` (hoomd.py lines
210-239): skip absent values, skip values equal (numpy broadcast equality) to
the cached frame-0 value, skip values equal to the static default, otherwise
write. -/
def HOOMDTrajectory._should_write (t : HOOMDTrajectory) (fid : FieldId)
    (snap : Snapshot) : Bool :=
  match snap.getField fid with
  | .absent => false
  | data =>
    if (match t._initial_frame with
        | some c => pyAllEq (c.getField fid) data
        | none => false) then false
    else if pyAllEq data (defaultField fid) then false
    else true

/-- Byte width of the fixed-width type-name matrix: `max(len(w)) + 1`
(Python character count, as in hoomd.py line 202). -/
def maxNameLen (l : List String) : Nat := (l.map String.length).foldl max 0

/-- Whether every name is pure ASCII; numpy's conversion of `str` to a bytes
dtype encodes with the ASCII codec and raises otherwise. -/
def allAsciiNames (l : List String) : Bool :=
  l.all (fun s => s.data.all (fun c => c.toNat < 128))

/-- A row of the byte matrix: the name's bytes, zero-padded to the width. -/
def padRow (bytes : List Int) (w : Nat) : List Int :=
  bytes ++ List.replicate (w - bytes.length) 0

/-- Bytes of an ASCII name. -/
def strBytes (s : String) : List Int := s.data.map (fun c => (c.toNat : Int))

/-- The type-name encoding of `append` (hoomd.py lines 201-204): an
`N × (maxlen+1)` int8 matrix of zero-padded name bytes.  `max` of an empty
sequence raises `ValueError`; non-ASCII names make numpy's bytes conversion
raise. -/
def encodeTypes (l : List String) : Except PyError NDArray :=
  match l with
  | [] => .error (.valueError "max arg is an empty sequence")
  | _ :: _ =>
    if allAsciiNames l then
      let wid := maxNameLen l + 1
      .ok { dtype := .int8, shape := [l.length, wid],
            data := (l.map (fun s => padRow (strBytes s) wid)).flatten }
    else .error .unicodeEncodeError

/-- Trailing zero bytes stripped, as numpy's bytes dtype does on read. -/
def stripTrailingZeros (l : List Int) : List Int :=
  (l.reverse.dropWhile (fun b => b == 0)).reverse

/-- UTF-8 decoding of a byte row, modelled on the single-byte (ASCII) range;
the writer only ever produces this range because numpy's string-to-bytes
conversion rejects non-ASCII input. -/
def decodeBytes : List Int → Except PyError (List Char)
  | [] => .ok []
  | b :: rest =>
    if 0 ≤ b ∧ b < 128 then
      match decodeBytes rest with
      | .error e => .error e
      | .ok cs => .ok (Char.ofNat b.toNat :: cs)
    else .error .unicodeDecodeError

/-- Decoding of one fixed-width row: strip the trailing padding, decode. -/
def decodeRow (row : List Int) : Except PyError String :=
  match decodeBytes (stripTrailingZeros row) with
  | .error e => .error e
  | .ok cs => .ok (String.mk cs)

/-- Row `i` of the flat row-major byte matrix with width `w`. -/
def rowSlice (arr : NDArray) (w i : Nat) : List Int :=
  (arr.data.drop (i * w)).take w

/-- Decoding of a list of row indices. -/
def decodeRowsAux (arr : NDArray) (w : Nat) : List Nat → Except PyError (List String)
  | [] => .ok []
  | i :: rest =>
    match decodeRow (rowSlice arr w i) with
    | .error e => .error e
    | .ok s =>
      match decodeRowsAux arr w rest with
      | .error e => .error e
      | .ok l => .ok (s :: l)

/-- The type-name decoding of `read_frame` (hoomd.py lines 290-294): view the
chunk as fixed-width byte rows and decode each. -/
def decodeTypesChunk (arr : NDArray) : Except PyError (List String) :=
  decodeRowsAux arr (arr.shape.getD 1 0) (List.range (arr.shape.getD 0 0))

/-- The entity-count resolution of `read_frame` (hoomd.py lines 281-287): the
frame's `particles/N` chunk when present, else the cached frame-0 count, else
zero. -/
def HOOMDTrajectory.resolveN (t : HOOMDTrajectory) (idx : Int) : Nat :=
  match t.file.read_chunk idx "particles/N" with
  | some arr => (arr.data.getD 0 0).toNat
  | none =>
    match t._initial_frame with
    | some c => c.particles.N
    | none => 0

/-- The type-name resolution of `read_frame` (hoomd.py lines 289-299): decode
the frame's chunk when present, else take the cached frame-0 list, else the
catalog default. -/
def HOOMDTrajectory.resolveTypes (t : HOOMDTrajectory) (idx : Int) :
    Except PyError (Option (List String)) :=
  match t.file.read_chunk idx "particles/types" with
  | some arr =>
    match decodeTypesChunk arr with
    | .error e => .error e
    | .ok l => .ok (some l)
  | none =>
    match t._initial_frame with
    | some c => .ok c.particles.types
    | none => .ok (some ["A"])

/-- The default synthesis of `read_frame` (hoomd.py lines 314-317):
`tmp = numpy.array([default]); s = list(tmp.shape); s[0] = N;
numpy.resize(tmp, s)`. -/
def synthDefault (f : PField) (N : Nat) : NDArray :=
  let tmp : NDArray := { f.defaultArr with shape := 1 :: f.defaultArr.shape }
  npResize tmp (N :: tmp.shape.tail)

/-- The per-particle field resolution of `read_frame` (hoomd.py lines
305-319): the frame's chunk when present; else, when the cached frame-0 count
equals the resolved count, the cached frame-0 array (shared storage) with its
writeable flag cleared; else the synthesized default, read-only.  A missing
cached array would make the flag assignment on `None` raise. -/
def readPField (file : GSDFile) (cache : Option Snapshot) (idx : Int) (N : Nat)
    (f : PField) : Except PyError NDArray :=
  match file.read_chunk idx ("particles/" ++ f.name) with
  | some arr => .ok arr
  | none =>
    match cache with
    | some c =>
      if c.particles.N = N then
        match c.particles.get f with
        | some a => .ok { a with writeable := false }
        | none => .error (.attributeError "NoneType has no attribute flags")
      else .ok { synthDefault f N with writeable := false }
    | none => .ok { synthDefault f N with writeable := false }

/-- Whether `read_frame` fills a field by aliasing the cached frame-0 array:
the frame has no chunk for it and the cached count matches the resolved
count. -/
def HOOMDTrajectory.aliasesFrame0 (t : HOOMDTrajectory) (idx : Int) (N : Nat)
    (f : PField) : Bool :=
  !(t.file.chunk_exists idx ("particles/" ++ f.name)) &&
    (match t._initial_frame with
     | some c => c.particles.N == N
     | none => false)

/-- Effect of one `read_frame` call on one cached array slot: aliased slots
have their writeable flag cleared in place (shared storage), others are left
alone. -/
def updField (t : HOOMDTrajectory) (idx : Int) (N : Nat) (f : PField)
    (v : Option NDArray) : Option NDArray :=
  if t.aliasesFrame0 idx N f then v.map (fun a => { a with writeable := false }) else v

/-- Effect of one `read_frame` call on the cached particle record: the flag
assignment `snap.particles.__dict__[name].flags.writeable = False` of
hoomd.py line 319 mutates the shared array in the aliasing case.  Each loop
iteration touches a distinct attribute, so the iterations are independent and
the loop is rendered as one simultaneous record update. -/
def markAliasedFields (t : HOOMDTrajectory) (idx : Int) (N : Nat)
    (p : SnapshotParticleData) : SnapshotParticleData :=
  { p with
    typeid := updField t idx N .typeid p.typeid
    mass := updField t idx N .mass p.mass
    charge := updField t idx N .charge p.charge
    diameter := updField t idx N .diameter p.diameter
    moment_inertia := updField t idx N .moment_inertia p.moment_inertia
    position := updField t idx N .position p.position
    orientation := updField t idx N .orientation p.orientation
    velocity := updField t idx N .velocity p.velocity
    angmom := updField t idx N .angmom p.angmom
    image := updField t idx N .image p.image }

/-- Cache state after one `read_frame` body (hoomd.py lines 319 and 321-323):
an already populated cache keeps its snapshot, with aliased arrays flagged
read-only in place; an unset cache is assigned the freshly built snapshot
when (and only when) frame 0 was read. -/
def newCacheFor (t : HOOMDTrajectory) (idx : Int) (N : Nat) (snap : Snapshot) :
    Option Snapshot :=
  match t._initial_frame with
  | some c => some { particles := markAliasedFields t idx N c.particles }
  | none => if idx = 0 then some snap else none

/-- Body of `read_frame` after the index check and the frame-0 preload
(hoomd.py lines 275-325): resolve the count, the type names and every
per-particle field through the three-tier fallback, then update the cache.
The `_default_value` loop is unrolled over the fixed catalog. -/
def HOOMDTrajectory.read_frame_core (t : HOOMDTrajectory) (idx : Int) :
    Except PyError (Snapshot × HOOMDTrajectory) :=
  match t.resolveTypes idx with
  | .error e => .error e
  | .ok types =>
  match readPField t.file t._initial_frame idx (t.resolveN idx) .typeid with
  | .error e => .error e
  | .ok typeid =>
  match readPField t.file t._initial_frame idx (t.resolveN idx) .mass with
  | .error e => .error e
  | .ok mass =>
  match readPField t.file t._initial_frame idx (t.resolveN idx) .charge with
  | .error e => .error e
  | .ok charge =>
  match readPField t.file t._initial_frame idx (t.resolveN idx) .diameter with
  | .error e => .error e
  | .ok diameter =>
  match readPField t.file t._initial_frame idx (t.resolveN idx) .moment_inertia with
  | .error e => .error e
  | .ok moment_inertia =>
  match readPField t.file t._initial_frame idx (t.resolveN idx) .position with
  | .error e => .error e
  | .ok position =>
  match readPField t.file t._initial_frame idx (t.resolveN idx) .orientation with
  | .error e => .error e
  | .ok orientation =>
  match readPField t.file t._initial_frame idx (t.resolveN idx) .velocity with
  | .error e => .error e
  | .ok velocity =>
  match readPField t.file t._initial_frame idx (t.resolveN idx) .angmom with
  | .error e => .error e
  | .ok angmom =>
  match readPField t.file t._initial_frame idx (t.resolveN idx) .image with
  | .error e => .error e
  | .ok image =>
  let snap : Snapshot :=
    { particles :=
      { N := t.resolveN idx
        types := types
        typeid := some typeid
        mass := some mass
        charge := some charge
        diameter := some diameter
        moment_inertia := some moment_inertia
        position := some position
        orientation := some orientation
        velocity := some velocity
        angmom := some angmom
        image := some image } }
  .ok (snap, { t with _initial_frame := newCacheFor t idx (t.resolveN idx) snap })

/-- The `read_frame` method (hoomd.py lines 253-325): reject `idx >= len`,
preload frame 0 when the cache is unset and another index is requested (the
recursive self-call, with its own index check), then run the body.  Negative
indices pass the check. -/
def HOOMDTrajectory.read_frame (t : HOOMDTrajectory) (idx : Int) :
    Except PyError (Snapshot × HOOMDTrajectory) :=
  if (t.length : Int) ≤ idx then .error .indexError
  else if t._initial_frame = none ∧ idx ≠ 0 then
    if (t.length : Int) ≤ 0 then .error .indexError
    else
      match t.read_frame_core 0 with
      | .error e => .error e
      | .ok r => (r.2).read_frame_core idx
  else t.read_frame_core idx

/-- One field's write step of `append` (hoomd.py lines 195-206): consult
`_should_write`, then stage the chunk, wrapping the count into a one-element
uint32 array and the type names into the fixed-width byte matrix. -/
def HOOMDTrajectory.writeField (t : HOOMDTrajectory) (snap : Snapshot)
    (file : GSDFile) (fid : FieldId) : Except PyError GSDFile :=
  if t._should_write fid snap then
    match fid, snap.getField fid with
    | .N, .nat n =>
      .ok (file.write_chunk "particles/N" { dtype := .uint32, shape := [1], data := [(n : Int)] })
    | .types, .strs l =>
      match encodeTypes l with
      | .error e => .error e
      | .ok arr => .ok (file.write_chunk "particles/types" arr)
    | .pfield f, .arr a => .ok (file.write_chunk ("particles/" ++ f.name) a)
    | _, _ => .error (.typeError "unexpected chunk value")
  else .ok file

/-- The write loop of `append` over the catalog, in `_default_value` order. -/
def appendWrites (t : HOOMDTrajectory) (snap : Snapshot) (file : GSDFile) :
    Except PyError GSDFile := do
  let file ← t.writeField snap file .N
  let file ← t.writeField snap file .types
  let file ← t.writeField snap file (.pfield .typeid)
  let file ← t.writeField snap file (.pfield .mass)
  let file ← t.writeField snap file (.pfield .charge)
  let file ← t.writeField snap file (.pfield .diameter)
  let file ← t.writeField snap file (.pfield .moment_inertia)
  let file ← t.writeField snap file (.pfield .position)
  let file ← t.writeField snap file (.pfield .orientation)
  let file ← t.writeField snap file (.pfield .velocity)
  let file ← t.writeField snap file (.pfield .angmom)
  let file ← t.writeField snap file (.pfield .image)
  pure file

/-- The `append` method (hoomd.py lines 169-208): validate the snapshot,
preload frame 0 into the cache when it is unset and frames exist, write the
fields that `_should_write` selects, and commit the frame. -/
def HOOMDTrajectory.append (t : HOOMDTrajectory) (snapshot : Snapshot) :
    Except PyError HOOMDTrajectory :=
  match snapshot.particles.validate with
  | .error e => .error e
  | .ok particles =>
  match (if t._initial_frame = none ∧ 0 < t.length then
           match t.read_frame 0 with
           | .error e => .error e
           | .ok r => .ok r.2
         else .ok t : Except PyError HOOMDTrajectory) with
  | .error e => .error e
  | .ok t1 =>
  match appendWrites t1 { particles := particles } t1.file with
  | .error e => .error e
  | .ok file => .ok { t1 with file := file.end_frame }

/-- UTF-8 byte count of one character (spec-side notion for the type-name
width claim). -/
def charUtf8Size (c : Char) : Nat :=
  if c.toNat < 128 then 1
  else if c.toNat < 2048 then 2
  else if c.toNat < 65536 then 3
  else 4

/-- UTF-8 byte length of a string (spec-side notion). -/
def utf8Len (s : String) : Nat := (s.data.map charUtf8Size).sum

/-- Largest UTF-8 byte length among a list of names (spec-side notion). -/
def maxNameUtf8 (l : List String) : Nat := (l.map utf8Len).foldl max 0

/-- Full elementwise equality of two dynamic values, the reading of
"elementwise-equal" in the write-decision claim: arrays must agree in shape
and in every element (no broadcasting). -/
def strictAllEq : FieldValue → FieldValue → Bool
  | .nat n, .nat m => n == m
  | .strs a, .strs b => a == b
  | .arr a, .arr b => a.shape == b.shape && a.data == b.data
  | .absent, .absent => true
  | _, _ => false

/-- The write decision exactly as the claim states it: rule 2 compares the
current value to the cached frame-0 value by full elementwise equality, rule
3 broadcast-compares against the static default. -/
def shouldWriteClaim (t : HOOMDTrajectory) (fid : FieldId) (snap : Snapshot) : Bool :=
  match snap.getField fid with
  | .absent => false
  | data =>
    match t._initial_frame with
    | some c =>
      if strictAllEq (c.getField fid) data then false
      else if pyAllEq data (defaultField fid) then false
      else true
    | none =>
      if pyAllEq data (defaultField fid) then false
      else true

/-- The write decision as the amended claim states it: the four rules in
order, first match winning, with rule 2 using the same numpy broadcast
equality as rule 3. -/
def shouldWriteAmended (t : HOOMDTrajectory) (fid : FieldId) (snap : Snapshot) : Bool :=
  match snap.getField fid with
  | .absent => false
  | data =>
    match t._initial_frame with
    | some c =>
      if pyAllEq (c.getField fid) data then false
      else if pyAllEq data (defaultField fid) then false
      else true
    | none =>
      if pyAllEq data (defaultField fid) then false
      else true

/-- An array with its writeable flag forgotten (set back to its initial
state), used to compare snapshot contents modulo the in-place read-only
marking. -/
def NDArray.rw (a : NDArray) : NDArray := { a with writeable := true }

/-- A particle record with every array's writeable flag forgotten. -/
def stripW (p : SnapshotParticleData) : SnapshotParticleData :=
  { p with
    typeid := p.typeid.map NDArray.rw
    mass := p.mass.map NDArray.rw
    charge := p.charge.map NDArray.rw
    diameter := p.diameter.map NDArray.rw
    moment_inertia := p.moment_inertia.map NDArray.rw
    position := p.position.map NDArray.rw
    orientation := p.orientation.map NDArray.rw
    velocity := p.velocity.map NDArray.rw
    angmom := p.angmom.map NDArray.rw
    image := p.image.map NDArray.rw }

/-- Whether an `Except` result is a success. -/
def isOkE {α : Type} : Except PyError α → Bool
  | .ok _ => true
  | .error _ => false

/-- A freshly created, still empty hoomd file. -/
def hoomdFile0 : GSDFile :=
  { name := "test.gsd", schema := "hoomd", schema_version := (0, 1), frames := [], pending := [] }

/-- A particle record with `N = 1` whose only present field is a
moment-of-inertia with `N * 3` elements. -/
def c1Particles : SnapshotParticleData :=
  { emptyParticles with
    N := 1
    moment_inertia := some { dtype := .float32, shape := [3], data := [1, 2, 3] } }

/-- First appended snapshot: one particle at position `(1, 1, 1)`. -/
def c2Snap0 : Snapshot :=
  { particles :=
    { emptyParticles with
      N := 1
      position := some { dtype := .float32, shape := [3], data := [1, 1, 1] } } }

/-- Second appended snapshot: two particles, both at position `(1, 1, 1)`. -/
def c2Snap1 : Snapshot :=
  { particles :=
    { emptyParticles with
      N := 2
      position := some { dtype := .float32, shape := [6], data := [1, 1, 1, 1, 1, 1] } } }

/-- A handle over the empty hoomd file. -/
def c2T0 : HOOMDTrajectory := { file := hoomdFile0, _initial_frame := none }

/-- Append the one-particle snapshot, then the two-particle snapshot, read
frame 1 back, and report the canonicalized supplied position next to the
position the read returns. -/
def c2Run : Except PyError (Option NDArray × Option NDArray) := do
  let t1 ← c2T0.append c2Snap0
  let t2 ← t1.append c2Snap1
  let r ← t2.read_frame 1
  let v ← c2Snap1.particles.validate
  pure (v.position, r.1.particles.position)

/-- A cached frame-0 snapshot with one particle at position `(1, 1, 1)`. -/
def c3Cache : Snapshot :=
  { particles :=
    { emptyParticles with
      N := 1
      types := some ["A"]
      position := some { dtype := .float32, shape := [1, 3], data := [1, 1, 1] } } }

/-- A handle whose Initial Frame Cache holds `c3Cache`. -/
def c3T : HOOMDTrajectory := { file := hoomdFile0, _initial_frame := some c3Cache }

/-- A snapshot with two particles, both at position `(1, 1, 1)` — elementwise
different from the one-row cached value, yet broadcast-equal to it. -/
def c3Snap : Snapshot :=
  { particles :=
    { emptyParticles with
      N := 2
      position := some { dtype := .float32, shape := [2, 3], data := [1, 1, 1, 1, 1, 1] } } }

/-- A hoomd file with two committed frames; frame 0 stores one particle,
frame 1 stores no chunks at all. -/
def c5File : GSDFile :=
  { name := "two.gsd", schema := "hoomd", schema_version := (0, 1),
    frames := [[("particles/N", { dtype := .uint32, shape := [1], data := [1] })], []],
    pending := [] }

/-- A handle over the two-frame file, cache unset. -/
def c5T : HOOMDTrajectory := { file := c5File, _initial_frame := none }

/-- A one-frame hoomd file whose frame 0 stores the count and a position
chunk, and nothing else. -/
def wFile : GSDFile :=
  { name := "w.gsd", schema := "hoomd", schema_version := (0, 1),
    frames := [[("particles/N", { dtype := .uint32, shape := [1], data := [1] }),
                ("particles/position", { dtype := .float32, shape := [1, 3], data := [5, 5, 5] })]],
    pending := [] }

/-- A fully resolved frame-0 snapshot for `wFile`, as the cache would hold. -/
def wCacheSnap : Snapshot :=
  { particles :=
    { N := 1
      types := some ["A"]
      typeid := some { dtype := .uint32, shape := [1], data := [7] }
      mass := some { dtype := .float32, shape := [1], data := [1] }
      charge := some { dtype := .float32, shape := [1], data := [0] }
      diameter := some { dtype := .float32, shape := [1], data := [1] }
      moment_inertia := some { dtype := .float32, shape := [1, 3], data := [0, 0, 0] }
      position := some { dtype := .float32, shape := [1, 3], data := [5, 5, 5] }
      orientation := some { dtype := .float32, shape := [1, 4], data := [1, 0, 0, 0] }
      velocity := some { dtype := .float32, shape := [1, 3], data := [0, 0, 0] }
      angmom := some { dtype := .float32, shape := [1, 4], data := [0, 0, 0, 0] }
      image := some { dtype := .int32, shape := [1, 3], data := [0, 0, 0] } } }

/-- A handle over `wFile` whose cache is populated with `wCacheSnap`. -/
def wT : HOOMDTrajectory := { file := wFile, _initial_frame := some wCacheSnap }

/-- The returned snapshot and the updated handle computed by `wT.read_frame 0`:
every absent-chunk field aliases the cached array with its flag cleared, the
present position chunk is returned as stored. -/
def wSnap : Snapshot :=
  { particles :=
    { N := 1
      types := some ["A"]
      typeid := some { dtype := .uint32, shape := [1], data := [7], writeable := false }
      mass := some { dtype := .float32, shape := [1], data := [1], writeable := false }
      charge := some { dtype := .float32, shape := [1], data := [0], writeable := false }
      diameter := some { dtype := .float32, shape := [1], data := [1], writeable := false }
      moment_inertia := some { dtype := .float32, shape := [1, 3], data := [0, 0, 0], writeable := false }
      position := some { dtype := .float32, shape := [1, 3], data := [5, 5, 5] }
      orientation := some { dtype := .float32, shape := [1, 4], data := [1, 0, 0, 0], writeable := false }
      velocity := some { dtype := .float32, shape := [1, 3], data := [0, 0, 0], writeable := false }
      angmom := some { dtype := .float32, shape := [1, 4], data := [0, 0, 0, 0], writeable := false }
      image := some { dtype := .int32, shape := [1, 3], data := [0, 0, 0], writeable := false } } }

/-- The handle state after `wT.read_frame 0`: the cached arrays now carry the
cleared writeable flags. -/
def wT' : HOOMDTrajectory := { file := wFile, _initial_frame := some wSnap }

/-- The snapshot that reading frame 0 of the two-frame file `c5File`
builds: the count chunk gives one particle and every other field is a
read-only synthesized default. -/
def c5Frame0Snap : Snapshot :=
  { particles :=
    { N := 1
      types := some ["A"]
      typeid := some { dtype := .uint32, shape := [1], data := [0], writeable := false }
      mass := some { dtype := .float32, shape := [1], data := [1], writeable := false }
      charge := some { dtype := .float32, shape := [1], data := [0], writeable := false }
      diameter := some { dtype := .float32, shape := [1], data := [1], writeable := false }
      moment_inertia := some { dtype := .float32, shape := [1, 3], data := [0, 0, 0], writeable := false }
      position := some { dtype := .float32, shape := [1, 3], data := [0, 0, 0], writeable := false }
      orientation := some { dtype := .float32, shape := [1, 4], data := [1, 0, 0, 0], writeable := false }
      velocity := some { dtype := .float32, shape := [1, 3], data := [0, 0, 0], writeable := false }
      angmom := some { dtype := .float32, shape := [1, 4], data := [0, 0, 0, 0], writeable := false }
      image := some { dtype := .int32, shape := [1, 3], data := [0, 0, 0], writeable := false } } }

/-- The handle state after `c5T` has read frame 0: the cache holds the
frame-0 snapshot. -/
def c5TAfter0 : HOOMDTrajectory := { file := c5File, _initial_frame := some c5Frame0Snap }

/-- The byte matrix produced by encoding the names `["ab", "c"]`. -/
def c6Arr : NDArray := { dtype := .int8, shape := [2, 3], data := [97, 98, 0, 99, 0, 0] }

/-- A file whose declared schema name is not `hoomd`. -/
def badSchemaFile : GSDFile :=
  { name := "b.gsd", schema := "x", schema_version := (0, 1), frames := [], pending := [] }

theorem decodeBytes_ne_index (l : List Int) : decodeBytes l ≠ .error .indexError := by
  induction l with
  | nil => simp [decodeBytes]
  | cons b rest ih =>
    unfold decodeBytes
    split
    · cases h : decodeBytes rest with
      | error e =>
        intro hc
        apply ih
        rw [h]
        exact hc
      | ok cs => simp
    · simp

theorem decodeRow_ne_index (row : List Int) : decodeRow row ≠ .error .indexError := by
  intro hc
  unfold decodeRow at hc
  split at hc
  · rename_i e heq
    injection hc with he
    exact decodeBytes_ne_index (stripTrailingZeros row) (by rw [heq, he])
  · exact Except.noConfusion hc

theorem decodeRowsAux_ne_index (arr : NDArray) (w : Nat) (l : List Nat) :
    decodeRowsAux arr w l ≠ .error .indexError := by
  induction l with
  | nil => simp [decodeRowsAux]
  | cons i rest ih =>
    intro hc
    unfold decodeRowsAux at hc
    split at hc
    · rename_i e heq
      injection hc with he
      exact decodeRow_ne_index (rowSlice arr w i) (by rw [heq, he])
    · split at hc
      · rename_i e heq
        injection hc with he
        exact ih (by rw [heq, he])
      · exact Except.noConfusion hc

theorem decodeTypesChunk_ne_index (arr : NDArray) :
    decodeTypesChunk arr ≠ .error .indexError :=
  decodeRowsAux_ne_index arr _ _

theorem resolveTypes_ne_index (t : HOOMDTrajectory) (idx : Int) :
    t.resolveTypes idx ≠ .error .indexError := by
  intro hc
  unfold HOOMDTrajectory.resolveTypes at hc
  split at hc
  · split at hc
    · rename_i e heq
      injection hc with he
      rw [he] at heq
      exact decodeTypesChunk_ne_index _ heq
    · exact Except.noConfusion hc
  · split at hc
    · exact Except.noConfusion hc
    · exact Except.noConfusion hc

theorem readPField_ne_index (file : GSDFile) (cache : Option Snapshot) (idx : Int)
    (N : Nat) (f : PField) : readPField file cache idx N f ≠ .error .indexError := by
  unfold readPField
  cases file.read_chunk idx ("particles/" ++ f.name) with
  | some arr => simp
  | none =>
    cases cache with
    | none => simp
    | some c =>
      dsimp only
      by_cases hN : c.particles.N = N
      · rw [if_pos hN]
        cases c.particles.get f <;> simp
      · rw [if_neg hN]
        simp

theorem read_chunk_eq_none_of (f : GSDFile) (i : Int) (nm : String)
    (h : f.chunk_exists i nm = false) : f.read_chunk i nm = none := by
  unfold GSDFile.chunk_exists at h
  unfold GSDFile.read_chunk
  cases hx : (f.frameChunks i).lookup nm with
  | none => rfl
  | some v => rw [hx] at h; simp at h

theorem markAliasedFields_get (t : HOOMDTrajectory) (idx : Int) (N : Nat)
    (p : SnapshotParticleData) (f : PField) :
    (markAliasedFields t idx N p).get f = updField t idx N f (p.get f) := by
  cases f <;> rfl

theorem markAliasedFields_N (t : HOOMDTrajectory) (idx : Int) (N : Nat)
    (p : SnapshotParticleData) : (markAliasedFields t idx N p).N = p.N := rfl

theorem markAliasedFields_types (t : HOOMDTrajectory) (idx : Int) (N : Nat)
    (p : SnapshotParticleData) : (markAliasedFields t idx N p).types = p.types := rfl

theorem updField_rw (t : HOOMDTrajectory) (idx : Int) (N : Nat) (f : PField)
    (v : Option NDArray) : (updField t idx N f v).map NDArray.rw = v.map NDArray.rw := by
  unfold updField
  split
  · cases v <;> rfl
  · rfl

theorem stripW_markAliased (t : HOOMDTrajectory) (idx : Int) (N : Nat)
    (p : SnapshotParticleData) : stripW (markAliasedFields t idx N p) = stripW p := by
  simp [stripW, markAliasedFields, updField_rw]

theorem read_frame_core_spec (t : HOOMDTrajectory) (idx : Int) :
    (∃ e, t.read_frame_core idx = .error e ∧ e ≠ PyError.indexError) ∨
    (∃ snap : Snapshot,
      t.read_frame_core idx =
        .ok (snap, { t with _initial_frame := newCacheFor t idx (t.resolveN idx) snap }) ∧
      t.resolveTypes idx = .ok snap.particles.types ∧
      snap.particles.N = t.resolveN idx ∧
      (∀ f : PField, ∃ a, readPField t.file t._initial_frame idx (t.resolveN idx) f = .ok a ∧
        snap.particles.get f = some a)) := by
  unfold HOOMDTrajectory.read_frame_core
  cases hty : t.resolveTypes idx with
  | error e =>
    exact Or.inl ⟨e, rfl, fun he => resolveTypes_ne_index t idx (by rw [hty, he])⟩
  | ok types =>
    dsimp only
    cases h1 : readPField t.file t._initial_frame idx (t.resolveN idx) .typeid with
    | error e =>
      exact Or.inl ⟨e, rfl, fun he => readPField_ne_index _ _ _ _ _ (by rw [h1, he])⟩
    | ok typeid =>
    dsimp only
    cases h2 : readPField t.file t._initial_frame idx (t.resolveN idx) .mass with
    | error e =>
      exact Or.inl ⟨e, rfl, fun he => readPField_ne_index _ _ _ _ _ (by rw [h2, he])⟩
    | ok mass =>
    dsimp only
    cases h3 : readPField t.file t._initial_frame idx (t.resolveN idx) .charge with
    | error e =>
      exact Or.inl ⟨e, rfl, fun he => readPField_ne_index _ _ _ _ _ (by rw [h3, he])⟩
    | ok charge =>
    dsimp only
    cases h4 : readPField t.file t._initial_frame idx (t.resolveN idx) .diameter with
    | error e =>
      exact Or.inl ⟨e, rfl, fun he => readPField_ne_index _ _ _ _ _ (by rw [h4, he])⟩
    | ok diameter =>
    dsimp only
    cases h5 : readPField t.file t._initial_frame idx (t.resolveN idx) .moment_inertia with
    | error e =>
      exact Or.inl ⟨e, rfl, fun he => readPField_ne_index _ _ _ _ _ (by rw [h5, he])⟩
    | ok moment_inertia =>
    dsimp only
    cases h6 : readPField t.file t._initial_frame idx (t.resolveN idx) .position with
    | error e =>
      exact Or.inl ⟨e, rfl, fun he => readPField_ne_index _ _ _ _ _ (by rw [h6, he])⟩
    | ok position =>
    dsimp only
    cases h7 : readPField t.file t._initial_frame idx (t.resolveN idx) .orientation with
    | error e =>
      exact Or.inl ⟨e, rfl, fun he => readPField_ne_index _ _ _ _ _ (by rw [h7, he])⟩
    | ok orientation =>
    dsimp only
    cases h8 : readPField t.file t._initial_frame idx (t.resolveN idx) .velocity with
    | error e =>
      exact Or.inl ⟨e, rfl, fun he => readPField_ne_index _ _ _ _ _ (by rw [h8, he])⟩
    | ok velocity =>
    dsimp only
    cases h9 : readPField t.file t._initial_frame idx (t.resolveN idx) .angmom with
    | error e =>
      exact Or.inl ⟨e, rfl, fun he => readPField_ne_index _ _ _ _ _ (by rw [h9, he])⟩
    | ok angmom =>
    dsimp only
    cases h10 : readPField t.file t._initial_frame idx (t.resolveN idx) .image with
    | error e =>
      exact Or.inl ⟨e, rfl, fun he => readPField_ne_index _ _ _ _ _ (by rw [h10, he])⟩
    | ok image =>
    dsimp only
    refine Or.inr ⟨_, rfl, rfl, rfl, ?_⟩
    intro f
    cases f
    · exact ⟨typeid, h1, rfl⟩
    · exact ⟨mass, h2, rfl⟩
    · exact ⟨charge, h3, rfl⟩
    · exact ⟨diameter, h4, rfl⟩
    · exact ⟨moment_inertia, h5, rfl⟩
    · exact ⟨position, h6, rfl⟩
    · exact ⟨orientation, h7, rfl⟩
    · exact ⟨velocity, h8, rfl⟩
    · exact ⟨angmom, h9, rfl⟩
    · exact ⟨image, h10, rfl⟩

theorem read_frame_core_ok_parts (t : HOOMDTrajectory) (idx : Int) (snap : Snapshot)
    (t' : HOOMDTrajectory) (h : t.read_frame_core idx = .ok (snap, t')) :
    t.resolveTypes idx = .ok snap.particles.types ∧
    snap.particles.N = t.resolveN idx ∧
    (∀ f : PField, ∃ a, readPField t.file t._initial_frame idx (t.resolveN idx) f = .ok a ∧
      snap.particles.get f = some a) ∧
    t' = { t with _initial_frame := newCacheFor t idx (t.resolveN idx) snap } := by
  rcases read_frame_core_spec t idx with ⟨e, he, -⟩ | ⟨s, hok, hty, hN, hf⟩
  · rw [he] at h
    exact Except.noConfusion h
  · rw [hok] at h
    injection h with hpair
    injection hpair with hsnap ht'
    subst hsnap
    exact ⟨hty, hN, hf, ht'.symm⟩

theorem read_frame_core_ne_index (t : HOOMDTrajectory) (idx : Int) :
    t.read_frame_core idx ≠ .error .indexError := by
  rcases read_frame_core_spec t idx with ⟨e, he, hne⟩ | ⟨s, hok, -, -, -⟩
  · rw [he]
    intro hc
    injection hc with he2
    exact hne he2
  · rw [hok]
    simp

theorem read_frame_ok_inv (t : HOOMDTrajectory) (idx : Int) (snap : Snapshot)
    (t' : HOOMDTrajectory) (h : t.read_frame idx = .ok (snap, t')) :
    ¬ (t.length : Int) ≤ idx ∧
    ∃ t0 : HOOMDTrajectory,
      t0.read_frame_core idx = .ok (snap, t') ∧
      t0.file = t.file ∧
      ((t._initial_frame = none ∧ idx ≠ 0) →
        ∃ s0 : Snapshot, t.read_frame 0 = .ok (s0, t0) ∧ t0._initial_frame = some s0) ∧
      (¬ (t._initial_frame = none ∧ idx ≠ 0) → t0 = t) := by
  unfold HOOMDTrajectory.read_frame at h
  by_cases h1 : (t.length : Int) ≤ idx
  · rw [if_pos h1] at h
    exact Except.noConfusion h
  · rw [if_neg h1] at h
    refine ⟨h1, ?_⟩
    by_cases h2 : t._initial_frame = none ∧ idx ≠ 0
    · rw [if_pos h2] at h
      by_cases h3 : (t.length : Int) ≤ 0
      · rw [if_pos h3] at h
        exact Except.noConfusion h
      · rw [if_neg h3] at h
        cases hc : t.read_frame_core 0 with
        | error e =>
          rw [hc] at h
          exact Except.noConfusion h
        | ok r =>
          rw [hc] at h
          have hrf0 : t.read_frame 0 = .ok (r.1, r.2) := by
            unfold HOOMDTrajectory.read_frame
            rw [if_neg h3, if_neg (fun hcon => hcon.2 rfl), hc]
          have hsnd : r.2 = { t with _initial_frame := newCacheFor t 0 (t.resolveN 0) r.1 } := by
            rcases read_frame_core_spec t 0 with ⟨e, he, -⟩ | ⟨s0, hok, -, -, -⟩
            · rw [he] at hc
              exact Except.noConfusion hc
            · rw [hok] at hc
              injection hc with hpair
              have hfst : s0 = r.1 := congrArg Prod.fst hpair
              rw [← hfst]
              exact (congrArg Prod.snd hpair).symm
          refine ⟨r.2, h, ?_, fun _ => ⟨r.1, hrf0, ?_⟩, fun hn => absurd h2 hn⟩
          · rw [hsnd]
          · rw [hsnd]
            show newCacheFor t 0 (t.resolveN 0) r.1 = some r.1
            unfold newCacheFor
            rw [h2.1]
            rfl
    · rw [if_neg h2] at h
      exact ⟨t, h, rfl, fun hcon => absurd hcon h2, fun _ => rfl⟩

theorem read_frame_ok_sets_cache (t : HOOMDTrajectory) (idx : Int) (snap : Snapshot)
    (t' : HOOMDTrajectory) (h : t.read_frame idx = .ok (snap, t')) :
    t'._initial_frame.isSome = true := by
  obtain ⟨-, t0, hcore, -, hpre, hnopre⟩ := read_frame_ok_inv t idx snap t' h
  obtain ⟨-, -, -, ht'⟩ := read_frame_core_ok_parts t0 idx snap t' hcore
  rw [ht']
  show (newCacheFor t0 idx (t0.resolveN idx) snap).isSome = true
  unfold newCacheFor
  cases hc0 : t0._initial_frame with
  | some c => rfl
  | none =>
    by_cases h2 : t._initial_frame = none ∧ idx ≠ 0
    · obtain ⟨s0, -, hsome⟩ := hpre h2
      rw [hc0] at hsome
      exact Option.noConfusion hsome
    · have ht0 := hnopre h2
      subst ht0
      have hidx : idx = 0 := by
        by_contra hne
        exact h2 ⟨hc0, hne⟩
      rw [if_pos hidx]
      rfl

theorem sum_utf8_ascii (cs : List Char) (h : cs.all (fun c => c.toNat < 128) = true) :
    (cs.map charUtf8Size).sum = cs.length := by
  induction cs with
  | nil => rfl
  | cons c rest ih =>
    rw [List.all_cons, Bool.and_eq_true] at h
    have hc : c.toNat < 128 := of_decide_eq_true h.1
    simp only [List.map_cons, List.sum_cons, List.length_cons, charUtf8Size, if_pos hc, ih h.2]
    omega

theorem foldl_max_utf8 (l : List String) (h : allAsciiNames l = true) :
    ∀ acc : Nat, (l.map utf8Len).foldl max acc = (l.map String.length).foldl max acc := by
  induction l with
  | nil => intro acc; rfl
  | cons s rest ih =>
    intro acc
    unfold allAsciiNames at h
    rw [List.all_cons, Bool.and_eq_true] at h
    have hs : utf8Len s = s.length := sum_utf8_ascii s.data h.1
    rw [List.map_cons, List.map_cons, List.foldl_cons, List.foldl_cons, hs]
    exact ih h.2 (max acc s.length)

theorem maxNameUtf8_eq (l : List String) (h : allAsciiNames l = true) :
    maxNameUtf8 l = maxNameLen l :=
  foldl_max_utf8 l h 0

/-- C1: the claim says `validate()` canonicalizes every present field and in
particular that a record whose only present field is a moment of inertia with
`N * 3` elements validates successfully, reshaped to `[N, 3]`.  The code
instead raises `AttributeError` on such a record: the reshape at hoomd.py
line 114 reads the misspelled attribute `self.moment_interia`, which does not
exist.  This theorem evaluates the embedded `validate` at the failing input
(`N = 1`, `moment_inertia = [1, 2, 3]`, every other field absent). -/
theorem C1_validate_moment_inertia_raises :
    c1Particles.validate = .error (.attributeError "moment_interia") := by rfl

/-- C2: the claim says an appended snapshot reads back with every explicitly
supplied field equal to its canonicalized value.  Evaluating the embedded
code on the failing input refutes this: frame 0 holds one particle at
position `(1, 1, 1)`; the next snapshot supplies two particles, both at
`(1, 1, 1)`, whose canonicalized position is the `[2, 3]` array of ones, yet
`_should_write` elides the chunk (numpy broadcast equality matches the
one-row frame-0 value), and reading frame 1 back returns the broadcast
default — a `[2, 3]` array of zeros — instead of the supplied data. -/
theorem C2_roundtrip_lost_chunk :
    c2Run = .ok
      (some { dtype := .float32, shape := [2, 3], data := [1, 1, 1, 1, 1, 1] },
       some { dtype := .float32, shape := [2, 3], data := [0, 0, 0, 0, 0, 0],
              writeable := false }) := by rfl

/-- C7: encoding the type names `["A", "BB", "C"]` yields the 3 by 3 byte
matrix with rows `A\0\0`, `BB\0`, `C\0\0`, and the read path's
trailing-pad-trimming decode returns the identical list. -/
theorem C7_typename_roundtrip :
    encodeTypes ["A", "BB", "C"] = .ok
      { dtype := .int8, shape := [3, 3], data := [65, 0, 0, 66, 66, 0, 67, 0, 0] } ∧
    decodeTypesChunk
      { dtype := .int8, shape := [3, 3], data := [65, 0, 0, 66, 66, 0, 67, 0, 0] } =
      .ok ["A", "BB", "C"] := by
  constructor
  · rfl
  · rfl

/-- C5 counterexample: on a trajectory with 2 frames, `read_frame (-1)`
does not fail — the only index check in the source is `idx >= len(self)`,
so the claim that negative indices raise a frame-index error is false. -/
theorem C5_negative_index_accepted :
    isOkE (c5T.read_frame (-1)) = true ∧ c5T.length = 2 := by
  constructor
  · rfl
  · rfl

/-- C3 counterexample: `_should_write` does not implement the claimed rule
list.  With the frame-0 cache holding a one-row position of ones and a
snapshot supplying a two-row position of ones, the claimed rules (rule 2:
full elementwise equality against the cached value; rule 3: broadcast
equality against the default) demand a write, but the code skips the write
because `numpy.all(initial == data)` broadcast-matches the one-row cached
value against the two-row data. -/
theorem C3_should_write_not_as_claimed :
    HOOMDTrajectory._should_write c3T (.pfield .position) c3Snap ≠
      shouldWriteClaim c3T (.pfield .position) c3Snap := by decide

/-- C3 amended: `_should_write` evaluates exactly the four claimed rules in
order with first match winning, except that rule 2 compares the current
value with the cached frame-0 value by the same numpy broadcast equality
that rule 3 uses for the default (not by full elementwise equality). -/
theorem C3_should_write_rules (t : HOOMDTrajectory) (fid : FieldId) (snap : Snapshot) :
    t._should_write fid snap = shouldWriteAmended t fid snap := by
  unfold HOOMDTrajectory._should_write shouldWriteAmended
  cases hd : snap.getField fid with
  | absent => rfl
  | nat n => cases t._initial_frame <;> rfl
  | strs l => cases t._initial_frame <;> rfl
  | arr a => cases t._initial_frame <;> rfl

/-- C9: constructing a trajectory handle fails with the schema-mismatch
runtime error when the file's schema name differs from `hoomd`, fails with
the schema-version runtime error when the name matches but the version tuple
differs from `(0, 1)`, and succeeds (producing the handle over the file with
an unset cache and nothing half-built) exactly when both match. -/
theorem C9_schema_checks (file : GSDFile) :
    (file.schema ≠ "hoomd" →
      openTrajectory file =
        .error (.runtimeError ("GSD file is not a hoomd schema file: " ++ file.name))) ∧
    (file.schema = "hoomd" → file.schema_version ≠ (0, 1) →
      openTrajectory file =
        .error (.runtimeError ("Incompatible hoomd schema version in: " ++ file.name))) ∧
    (file.schema = "hoomd" → file.schema_version = (0, 1) →
      openTrajectory file = .ok { file := file, _initial_frame := none }) := by
  refine ⟨fun h => ?_, fun h1 h2 => ?_, fun h1 h2 => ?_⟩
  · unfold openTrajectory
    rw [if_pos h]
  · unfold openTrajectory
    rw [if_neg (by simp [h1]), if_pos h2]
  · unfold openTrajectory
    rw [if_neg (by simp [h1]), if_neg (by simp [h2])]

/-- C9 witness: the schema check at two concrete files — a non-hoomd schema
is rejected with the mismatch error, and the well-formed empty hoomd file
opens successfully. -/
theorem C9_schema_checks_witness :
    openTrajectory badSchemaFile =
      .error (.runtimeError ("GSD file is not a hoomd schema file: " ++ badSchemaFile.name)) ∧
    openTrajectory hoomdFile0 = .ok { file := hoomdFile0, _initial_frame := none } :=
  ⟨(C9_schema_checks badSchemaFile).1 (by decide),
   (C9_schema_checks hoomdFile0).2.2 rfl rfl⟩

/-- C5 amended: `read_frame idx` fails with the frame-index error exactly
when `idx ≥ length()`, or in the corner case of an empty trajectory with an
unset cache and a negative index (where the internal frame-0 preload's own
index check fires).  Negative indices on a non-empty trajectory are not
rejected. -/
theorem C5_index_error_iff (t : HOOMDTrajectory) (idx : Int) :
    (t.read_frame idx = .error .indexError) ↔
      ((t.length : Int) ≤ idx ∨
        (t._initial_frame = none ∧ t.length = 0 ∧ idx < 0)) := by
  unfold HOOMDTrajectory.read_frame
  by_cases h1 : (t.length : Int) ≤ idx
  · rw [if_pos h1]
    simp [h1]
  · rw [if_neg h1]
    by_cases h2 : t._initial_frame = none ∧ idx ≠ 0
    · rw [if_pos h2]
      by_cases h3 : (t.length : Int) ≤ 0
      · rw [if_pos h3]
        have hlen : t.length = 0 := by omega
        have hidx : idx < 0 := by omega
        constructor
        · intro _
          exact Or.inr ⟨h2.1, hlen, hidx⟩
        · intro _
          rfl
      · rw [if_neg h3]
        cases hc : t.read_frame_core 0 with
        | error e =>
          have hne := read_frame_core_ne_index t 0
          rw [hc] at hne
          constructor
          · intro hcon
            exact absurd hcon hne
          · intro hcon
            rcases hcon with hcon | ⟨-, hl0, -⟩
            · exact absurd hcon h1
            · omega
        | ok r =>
          have hne := read_frame_core_ne_index r.2 idx
          constructor
          · intro hcon
            exact absurd hcon hne
          · intro hcon
            rcases hcon with hcon | ⟨-, hl0, -⟩
            · exact absurd hcon h1
            · omega
    · rw [if_neg h2]
      have hne := read_frame_core_ne_index t idx
      constructor
      · intro hcon
        exact absurd hcon hne
      · intro hcon
        rcases hcon with hcon | ⟨hnone, hl0, hneg⟩
        · exact absurd hcon h1
        · exact absurd ⟨hnone, by omega⟩ h2

/-- C6: every type-name list that `append` actually writes (encoding succeeds,
which requires a non-empty, pure-ASCII list) is encoded as an int8 matrix of
`N` rows and `W` columns where `W` is the UTF-8 byte length of the longest
name plus one (for the ASCII names the writer accepts, the Python character
count used by the source equals the UTF-8 byte length), each row holding the
name's bytes left-justified and zero-padded. -/
theorem C6_types_encoding (l : List String) (arr : NDArray)
    (h : encodeTypes l = .ok arr) :
    arr.dtype = .int8 ∧
    arr.shape = [l.length, maxNameUtf8 l + 1] ∧
    arr.data = (l.map (fun s => padRow (strBytes s) (maxNameUtf8 l + 1))).flatten := by
  unfold encodeTypes at h
  cases l with
  | nil => exact Except.noConfusion h
  | cons s rest =>
    by_cases ha : allAsciiNames (s :: rest) = true
    · rw [if_pos ha] at h
      injection h with harr
      subst harr
      have hm := maxNameUtf8_eq (s :: rest) ha
      refine ⟨rfl, ?_, ?_⟩
      · rw [hm]
      · rw [hm]
    · rw [if_neg ha] at h
      exact Except.noConfusion h

/-- C6 witness: the encoding theorem applied at the concrete list
`["ab", "c"]`, whose matrix is computed by evaluation. -/
theorem C6_types_encoding_witness :
    encodeTypes ["ab", "c"] = .ok c6Arr ∧
      (c6Arr.dtype = .int8 ∧
       c6Arr.shape = [["ab", "c"].length, maxNameUtf8 ["ab", "c"] + 1] ∧
       c6Arr.data = (["ab", "c"].map
         (fun s => padRow (strBytes s) (maxNameUtf8 ["ab", "c"] + 1))).flatten) :=
  ⟨rfl, C6_types_encoding ["ab", "c"] c6Arr rfl⟩

/-- C4: for every accepted read (any index the bounds check admits) and
every per-particle field with no chunk stored for that frame, the field is
resolved through the fallback against the cache state in effect when the
frame body runs: the entry cache, or — when the cache was unset and an index
other than 0 was requested — the cache populated by the internal frame-0
read.  With that cache populated and its count equal to the resolved count,
the returned array is the cached frame-0 array with its writeable flag
cleared (and the updated handle's cache holds the same read-only array —
shared storage); otherwise (count mismatch, or an unset cache when frame 0
itself is read) it is the static default broadcast to the resolved count;
in both fallback cases the buffer is marked read-only. -/
theorem C4_read_fallback (t : HOOMDTrajectory) (idx : Int) (snap : Snapshot)
    (t' : HOOMDTrajectory) (f : PField)
    (h2 : t.read_frame idx = .ok (snap, t'))
    (hf : t.file.chunk_exists idx ("particles/" ++ f.name) = false) :
    ∃ t0 : HOOMDTrajectory,
      t0.file = t.file ∧
      (¬ (t._initial_frame = none ∧ idx ≠ 0) → t0 = t) ∧
      ((t._initial_frame = none ∧ idx ≠ 0) →
        ∃ s0 : Snapshot, t.read_frame 0 = .ok (s0, t0) ∧ t0._initial_frame = some s0) ∧
      (∀ c : Snapshot, t0._initial_frame = some c →
        (c.particles.N = t0.resolveN idx →
          ∃ a, c.particles.get f = some a ∧
            snap.particles.get f = some { a with writeable := false } ∧
            ∃ c', t'._initial_frame = some c' ∧
              c'.particles.get f = some { a with writeable := false }) ∧
        (c.particles.N ≠ t0.resolveN idx →
          snap.particles.get f =
            some { synthDefault f (t0.resolveN idx) with writeable := false })) ∧
      (t0._initial_frame = none →
        snap.particles.get f =
          some { synthDefault f (t0.resolveN idx) with writeable := false }) := by
  obtain ⟨-, t0, hcore, hfile, hpre, hnopre⟩ := read_frame_ok_inv t idx snap t' h2
  have hf0 : t0.file.chunk_exists idx ("particles/" ++ f.name) = false := by
    rw [hfile]
    exact hf
  have hchunk : t0.file.read_chunk idx ("particles/" ++ f.name) = none :=
    read_chunk_eq_none_of _ _ _ hf0
  obtain ⟨-, -, hfld, ht'⟩ := read_frame_core_ok_parts t0 idx snap t' hcore
  refine ⟨t0, hfile, hnopre, hpre, ?_, ?_⟩
  · intro c hc
    constructor
    · intro hN
      obtain ⟨a0, hr, hget⟩ := hfld f
      unfold readPField at hr
      rw [hchunk, hc] at hr
      dsimp only at hr
      rw [if_pos hN] at hr
      cases hg : c.particles.get f with
      | none => rw [hg] at hr; exact Except.noConfusion hr
      | some a =>
        rw [hg] at hr
        dsimp only at hr
        injection hr with ha0
        have halias : t0.aliasesFrame0 idx (t0.resolveN idx) f = true := by
          unfold HOOMDTrajectory.aliasesFrame0
          rw [hf0, hc]
          simp [hN]
        have hcache : t'._initial_frame =
            some { particles := markAliasedFields t0 idx (t0.resolveN idx) c.particles } := by
          rw [ht']
          show newCacheFor t0 idx (t0.resolveN idx) snap = _
          unfold newCacheFor
          rw [hc]
        refine ⟨a, rfl, ?_, ?_⟩
        · rw [hget, ← ha0]
        · refine ⟨_, hcache, ?_⟩
          show (markAliasedFields t0 idx (t0.resolveN idx) c.particles).get f = _
          rw [markAliasedFields_get]
          unfold updField
          rw [if_pos halias, hg]
          rfl
    · intro hN
      obtain ⟨a0, hr, hget⟩ := hfld f
      unfold readPField at hr
      rw [hchunk, hc] at hr
      dsimp only at hr
      rw [if_neg hN] at hr
      injection hr with ha0
      rw [hget, ← ha0]
  · intro hc
    obtain ⟨a0, hr, hget⟩ := hfld f
    unfold readPField at hr
    rw [hchunk, hc] at hr
    dsimp only at hr
    injection hr with ha0
    rw [hget, ← ha0]

/-- C4 witness: the fallback theorem applied on the frame-0 preload path.
The two-frame handle `c5T` starts with an unset cache; reading frame 1
first populates the cache from frame 0 (producing `c5Frame0Snap`), and the
chunkless `typeid` field of frame 1 then aliases that just-populated cache,
read-only. -/
theorem C4_read_fallback_witness :
    ∃ a, c5Frame0Snap.particles.get .typeid = some a ∧
      c5Frame0Snap.particles.get .typeid = some { a with writeable := false } ∧
      ∃ c', c5TAfter0._initial_frame = some c' ∧
        c'.particles.get .typeid = some { a with writeable := false } := by
  obtain ⟨t0, -, -, hpre, hsome, -⟩ :=
    C4_read_fallback c5T 1 c5Frame0Snap c5TAfter0 PField.typeid (by rfl) (by rfl)
  obtain ⟨s0, hrf0, -⟩ := hpre ⟨rfl, by decide⟩
  have hid : (c5Frame0Snap, c5TAfter0) = (s0, t0) :=
    Except.ok.inj ((by rfl : c5T.read_frame 0 = .ok (c5Frame0Snap, c5TAfter0)).symm.trans hrf0)
  have ht0 : t0 = c5TAfter0 := (congrArg Prod.snd hid).symm
  rw [ht0] at hsome
  exact (hsome c5Frame0Snap rfl).1 (by rfl)

/-- C10: when a read aliases cached frame-0 buffers, the read-only flag is
set on the shared storage itself: after a successful `read_frame` on a
handle with a populated cache, the cache still holds a snapshot in which
exactly the aliased fields (absent chunk, matching count) have their
writeable flag cleared — sharing their value with the returned snapshot —
while every other field, the count and the type list are untouched. -/
theorem C10_cache_marked_readonly (t : HOOMDTrajectory) (idx : Int) (snap : Snapshot)
    (t' : HOOMDTrajectory) (c : Snapshot)
    (h1 : t._initial_frame = some c) (h2 : t.read_frame idx = .ok (snap, t')) :
    ∃ c', t'._initial_frame = some c' ∧
      c'.particles.N = c.particles.N ∧
      c'.particles.types = c.particles.types ∧
      ∀ f : PField,
        (t.aliasesFrame0 idx (t.resolveN idx) f = true →
          c'.particles.get f =
            (c.particles.get f).map (fun a => { a with writeable := false }) ∧
          snap.particles.get f = c'.particles.get f) ∧
        (t.aliasesFrame0 idx (t.resolveN idx) f = false →
          c'.particles.get f = c.particles.get f) := by
  obtain ⟨-, t0, hcore, -, -, hnopre⟩ := read_frame_ok_inv t idx snap t' h2
  have ht0 : t0 = t :=
    hnopre (fun hcon => by rw [h1] at hcon; exact Option.noConfusion hcon.1)
  rw [ht0] at hcore
  obtain ⟨-, -, hfld, ht'⟩ := read_frame_core_ok_parts t idx snap t' hcore
  have hcache : t'._initial_frame =
      some { particles := markAliasedFields t idx (t.resolveN idx) c.particles } := by
    rw [ht']
    show newCacheFor t idx (t.resolveN idx) snap = _
    unfold newCacheFor
    rw [h1]
  refine ⟨_, hcache,
    markAliasedFields_N t idx (t.resolveN idx) c.particles,
    markAliasedFields_types t idx (t.resolveN idx) c.particles, ?_⟩
  intro f
  constructor
  · intro halias
    have hsplit : t.file.chunk_exists idx ("particles/" ++ f.name) = false ∧
        c.particles.N = t.resolveN idx := by
      unfold HOOMDTrajectory.aliasesFrame0 at halias
      rw [h1] at halias
      dsimp only at halias
      rw [Bool.and_eq_true, Bool.not_eq_true'] at halias
      exact ⟨halias.1, by simpa using halias.2⟩
    have hchunk : t.file.read_chunk idx ("particles/" ++ f.name) = none :=
      read_chunk_eq_none_of _ _ _ hsplit.1
    obtain ⟨a0, hr, hget⟩ := hfld f
    unfold readPField at hr
    rw [hchunk, h1] at hr
    dsimp only at hr
    rw [if_pos hsplit.2] at hr
    cases hg : c.particles.get f with
    | none => rw [hg] at hr; exact Except.noConfusion hr
    | some a =>
      rw [hg] at hr
      dsimp only at hr
      injection hr with ha0
      have hcget : (markAliasedFields t idx (t.resolveN idx) c.particles).get f =
          some { a with writeable := false } := by
        rw [markAliasedFields_get]
        unfold updField
        rw [if_pos halias, hg]
        rfl
      constructor
      · show (markAliasedFields t idx (t.resolveN idx) c.particles).get f = _
        rw [hcget]
        rfl
      · rw [hget, ← ha0]
        exact hcget.symm
  · intro hnot
    show (markAliasedFields t idx (t.resolveN idx) c.particles).get f = c.particles.get f
    rw [markAliasedFields_get]
    unfold updField
    rw [if_neg (by simp [hnot])]

/-- C10 witness: the cache-marking theorem applied to the concrete handle
`wT` at frame 0 and the `mass` field, which is aliased there. -/
theorem C10_cache_marked_readonly_witness :
    ∃ c', wT'._initial_frame = some c' ∧
      c'.particles.N = wCacheSnap.particles.N ∧
      c'.particles.types = wCacheSnap.particles.types ∧
      (wT.aliasesFrame0 0 (wT.resolveN 0) PField.mass = true →
        c'.particles.get .mass =
          (wCacheSnap.particles.get .mass).map (fun a => { a with writeable := false }) ∧
        wSnap.particles.get .mass = c'.particles.get .mass) := by
  obtain ⟨c', hc1, hc2, hc3, hc4⟩ :=
    C10_cache_marked_readonly wT 0 wSnap wT' wCacheSnap rfl (by rfl)
  exact ⟨c', hc1, hc2, hc3, (hc4 PField.mass).1⟩

/-- C8: the Initial Frame Cache is assigned at most once.  A successful
`read_frame` always leaves the cache populated, and when the cache already
held a snapshot it still holds a snapshot with identical content (only
writeable flags of aliased arrays are cleared in place, per C10).  A
successful `append` populates the cache when frames existed, leaves it
exactly unchanged on the very first append to an empty file, and never
replaces an already-populated cache. -/
theorem C8_cache_write_once (t : HOOMDTrajectory) :
    (∀ idx : Int, ∀ snap : Snapshot, ∀ t' : HOOMDTrajectory,
      t.read_frame idx = .ok (snap, t') →
        t'._initial_frame.isSome = true ∧
        ∀ c : Snapshot, t._initial_frame = some c →
          ∃ c', t'._initial_frame = some c' ∧ stripW c'.particles = stripW c.particles) ∧
    (∀ s : Snapshot, ∀ t2 : HOOMDTrajectory, t.append s = .ok t2 →
      (0 < t.length → t2._initial_frame.isSome = true) ∧
      (t.length = 0 → t2._initial_frame = t._initial_frame) ∧
      ∀ c : Snapshot, t._initial_frame = some c → t2._initial_frame = some c) := by
  constructor
  · intro idx snap t' h
    refine ⟨read_frame_ok_sets_cache t idx snap t' h, ?_⟩
    intro c hc
    obtain ⟨-, t0, hcore, -, -, hnopre⟩ := read_frame_ok_inv t idx snap t' h
    have ht0 : t0 = t :=
      hnopre (fun hcon => by rw [hc] at hcon; exact Option.noConfusion hcon.1)
    rw [ht0] at hcore
    obtain ⟨-, -, -, ht'⟩ := read_frame_core_ok_parts t idx snap t' hcore
    have hcache : t'._initial_frame =
        some { particles := markAliasedFields t idx (t.resolveN idx) c.particles } := by
      rw [ht']
      show newCacheFor t idx (t.resolveN idx) snap = _
      unfold newCacheFor
      rw [hc]
    exact ⟨_, hcache, stripW_markAliased t idx (t.resolveN idx) c.particles⟩
  · intro s t2 h
    unfold HOOMDTrajectory.append at h
    cases hv : s.particles.validate with
    | error e => rw [hv] at h; exact Except.noConfusion h
    | ok particles =>
      rw [hv] at h
      dsimp only at h
      by_cases hpre : t._initial_frame = none ∧ 0 < t.length
      · rw [if_pos hpre] at h
        cases hr : t.read_frame 0 with
        | error e => rw [hr] at h; exact Except.noConfusion h
        | ok r =>
          rw [hr] at h
          dsimp only at h
          cases hw : appendWrites r.2 { particles := particles } r.2.file with
          | error e => rw [hw] at h; exact Except.noConfusion h
          | ok file =>
            rw [hw] at h
            dsimp only at h
            injection h with ht2
            refine ⟨fun _ => ?_, fun hl => absurd hpre.2 (by omega), fun c hc => ?_⟩
            · rw [← ht2]
              show r.2._initial_frame.isSome = true
              exact read_frame_ok_sets_cache t 0 r.1 r.2 (by rw [hr])
            · have hn := hpre.1
              rw [hc] at hn
              exact Option.noConfusion hn
      · rw [if_neg hpre] at h
        dsimp only at h
        cases hw : appendWrites t { particles := particles } t.file with
        | error e => rw [hw] at h; exact Except.noConfusion h
        | ok file =>
          rw [hw] at h
          dsimp only at h
          injection h with ht2
          refine ⟨fun hlen => ?_, fun _ => ?_, fun c hc => ?_⟩
          · rw [← ht2]
            show t._initial_frame.isSome = true
            cases hcc : t._initial_frame with
            | none => exact absurd ⟨hcc, hlen⟩ hpre
            | some c => rfl
          · rw [← ht2]
          · rw [← ht2]
            show t._initial_frame = some c
            exact hc

/-- C8 witness: the write-once theorem applied to the concrete handle `wT`
reading frame 0: the cache stays populated with content-identical data. -/
theorem C8_cache_write_once_witness :
    wT'._initial_frame.isSome = true ∧
      ∃ c', wT'._initial_frame = some c' ∧
        stripW c'.particles = stripW wCacheSnap.particles := by
  obtain ⟨hs, hp⟩ := (C8_cache_write_once wT).1 0 wSnap wT' (by rfl)
  exact ⟨hs, hp wCacheSnap rfl⟩
